import Mathlib

/-
  Verification development for the uplink-monitor server.

  The definitions below are a shallow embedding of the metrics-resolution
  and distribution pipeline of the server source (the compiled server file):
  the multi-provider public-IP resolver with caching and ordered fallback
  (getPublicIpInfo), the ISP-change detector over the swap table
  (checkAndLogIspChange), the periodic gateway probe logger
  (logGatewayStatus), the per-provider rate-limit gate of the provider
  clients, the retry wrapper (getMetricsWithRetry), the snapshot aggregator
  (getNetworkMetrics), and the monitoring loop plus the subscriber push
  tick. External effects (network responses, database query results, the
  system clock) are passed in as explicit inputs; machine time is modelled
  as Nat milliseconds.
-/

namespace UplinkMonitor

/-- Normalized identity record produced by a provider client or served from
the cache. Latitude and longitude are modelled as integers; the sentinel
uses 0 for both, matching the source. -/
structure IpInfo where
  ip : String
  country : String
  region : String
  city : String
  isp : String
  latitude : Int
  longitude : Int
  organization : String
  timezone : String
  source : String
deriving DecidableEq

/-- Sentinel record returned when every provider fails and no cache entry
exists. Field values are copied verbatim from the source. -/
def mockIpInfo : IpInfo :=
  ⟨"000.000.000.000", "Unknown", "Unknown", "Unknown", "Unknown",
   0, 0, "Unknown", "Unknown", "mock"⟩

/-- Default cache lifetime in milliseconds (environment default 30000). -/
def CACHE_DURATION : Nat := 30000

/-- Default gap between persisted ISP checks in milliseconds. -/
def ISP_CHECK_INTERVAL : Nat := 30000

/-- Cache entry held in the module-level cachedIpInfo variable. -/
structure CacheEntry where
  data : IpInfo
  timestamp : Nat
deriving DecidableEq

/-- Result of one resolver call: the returned record, the cache state after
the call, and how many provider fetches were attempted during the call. -/
structure ResolveResult where
  data : IpInfo
  cache : Option CacheEntry
  attempts : Nat
deriving DecidableEq

/-- First succeeding provider in the priority-ordered outcome list, paired
with the number of fetch attempts consumed reaching it (the loop in the
source stops at the first success). -/
def firstSuccess : List (Option IpInfo) → Option (IpInfo × Nat)
  | [] => none
  | some d :: _ => some (d, 1)
  | none :: rest =>
    match firstSuccess rest with
    | some (d, n) => some (d, n + 1)
    | none => none

/-- Embedding of getPublicIpInfo. Inputs: the clock value captured at entry
(now), the outcome each provider would produce if fetched, in the fixed
priority order ip-api.com, freeipapi.com, ipwho.is, ipify.org (none models
a failed fetch), and the current cache. The source returns fresh cache
data immediately; otherwise it walks the providers, caches and returns the
first success with timestamp now; if all fail it returns expired cache
data when present and the sentinel otherwise. The function is total: no
branch throws or yields null. -/
def getPublicIpInfo (now : Nat) (outcomes : List (Option IpInfo))
    (cache : Option CacheEntry) : ResolveResult :=
  match cache with
  | some c =>
    if now - c.timestamp < CACHE_DURATION then ⟨c.data, some c, 0⟩
    else
      match firstSuccess outcomes with
      | some (d, n) => ⟨d, some ⟨d, now⟩, n⟩
      | none => ⟨c.data, some c, outcomes.length⟩
  | none =>
    match firstSuccess outcomes with
    | some (d, n) => ⟨d, some ⟨d, now⟩, n⟩
    | none => ⟨mockIpInfo, none, outcomes.length⟩

/-- Cache state that does not satisfy the freshness test of the source, so
the provider loop runs: either no entry, or an entry aged at least
CACHE_DURATION at the given clock value. -/
def CacheMiss (now : Nat) : Option CacheEntry → Prop
  | none => True
  | some c => CACHE_DURATION ≤ now - c.timestamp

/- ---------------- swap table / ISP change detector ---------------- -/

/-- Row of the swap table. The list model keeps the most recently inserted
row at the head, matching ORDER BY timestamp DESC with strictly increasing
insertion timestamps. -/
structure SwapRow where
  isp : String
  ip : String
  uplink : Bool
deriving DecidableEq

/-- Embedding of the UPDATE statement: set uplink = 0 on every row whose
isp equals the previous ISP and whose uplink is 1. -/
def deactivate (oldIsp : String) (t : List SwapRow) : List SwapRow :=
  t.map fun r => if r.isp = oldIsp ∧ r.uplink = true then ⟨r.isp, r.ip, false⟩ else r

/-- Embedding of checkAndLogIspChange on the success path: read the most
recent row; if the table is empty or its isp differs from the observed
one, deactivate the rows of the previous ISP and insert a new active row;
otherwise leave the table unchanged. -/
def checkAndLogIspChange (newIsp newIp : String) (t : List SwapRow) : List SwapRow :=
  match t.head? with
  | none => ⟨newIsp, newIp, true⟩ :: t
  | some last =>
    if last.isp = newIsp then t
    else ⟨newIsp, newIp, true⟩ :: deactivate last.isp t

/-- Swap table reached from the empty table by processing the observed
(isp, ip) pairs one at a time, oldest first. -/
def run (obs : List (String × String)) : List SwapRow :=
  obs.foldl (fun t p => checkAndLogIspChange p.1 p.2 t) []

/- ---------------- gateway probe logger ---------------- -/

/-- Status value persisted by the gateway logger. -/
inductive GwStatus
  | up
  | down
deriving DecidableEq

/-- One attempted INSERT into gateway_log: the status it carried and
whether the write succeeded. -/
structure GwWrite where
  status : GwStatus
  ok : Bool
deriving DecidableEq

/-- Writes attempted by one invocation of the gateway logger: the primary
write inside the try block and the fallback write inside the catch block.
Each slot is attempted at most once per invocation. -/
structure GwRun where
  primaryAttempt : Option GwWrite
  fallbackAttempt : Option GwWrite
deriving DecidableEq

/-- Embedding of logGatewayStatus. Inputs: whether the pool is non-null,
the probe outcome (ok alive when the ping resolves, error when it
rejects; the ping library resolves timeouts and unreachable hosts as
alive = false), and whether each INSERT would succeed. The function is
total: every error path of the source is caught, so no invocation
throws. -/
def logGatewayStatus (hasPool : Bool) (probe : Except Unit Bool)
    (primaryOk fallbackOk : Bool) : GwRun :=
  if hasPool = false then ⟨none, none⟩
  else
    match probe with
    | Except.ok alive =>
      let status := if alive then GwStatus.up else GwStatus.down
      if primaryOk then ⟨some ⟨status, true⟩, none⟩
      else ⟨some ⟨status, false⟩, some ⟨GwStatus.down, fallbackOk⟩⟩
    | Except.error _ => ⟨none, some ⟨GwStatus.down, fallbackOk⟩⟩

/- ---------------- provider rate-limit gate ---------------- -/

/-- Per-provider minimum intervals, in milliseconds, from API_RATE_LIMITS. -/
structure ApiRateLimits where
  ipApi : Nat
  freeIpApi : Nat
  ipWhoIs : Nat
  ipify : Nat
deriving DecidableEq

/-- Values of the API_RATE_LIMITS constant. -/
def API_RATE_LIMITS : ApiRateLimits := ⟨1000, 1000, 1000, 1000⟩

/-- Outcome of one provider request: how long the request took between
send and response, and whether it ended in the success branch of the
provider client (for ip-api.com, a response with status success). -/
structure CallOutcome where
  duration : Nat
  ok : Bool
deriving DecidableEq

/-- Sleep inserted by the gate at the top of each provider client: when
less than the limit has elapsed since the stored last-call time, wait for
the difference, else proceed at once. -/
def waitTime (now lastCall limit : Nat) : Nat :=
  if now - lastCall < limit then limit - (now - lastCall) else 0

/-- Time at which the outbound request is sent: arrival plus gate wait. -/
def sendTime (now lastCall limit : Nat) : Nat :=
  now + waitTime now lastCall limit

/-- One provider call through the gate: returns the send time and the new
stored last-call value. The source stores Date.now() taken after the
response, and only on the success branch; a failed request leaves the
stored value unchanged. -/
def stepCall (limit lastCall arrival : Nat) (c : CallOutcome) : Nat × Nat :=
  (sendTime arrival lastCall limit,
   if c.ok then sendTime arrival lastCall limit + c.duration else lastCall)

/- ---------------- retry wrapper and aggregator ---------------- -/

/-- Attempt loop of getMetricsWithRetry starting at attempt index i with n
attempts left: return the first success, fail when the budget is gone. -/
def retryFrom (fn : Nat → Option α) : Nat → Nat → Option α
  | _, 0 => none
  | i, n + 1 =>
    match fn i with
    | some a => some a
    | none => retryFrom fn (i + 1) n

/-- Embedding of getMetricsWithRetry: up to retries attempts of the fetch,
indexed 0, 1, ...; the result of attempt i is fn i. Every call site of
the source uses the default budget of 3. -/
def getMetricsWithRetry (fn : Nat → Option α) (retries : Nat) : Option α :=
  retryFrom fn 0 retries

/-- Network counter sample from the first interface entry. -/
structure NetStats where
  rx_sec : Int
  tx_sec : Int
  rx_bytes : Int
  tx_bytes : Int
deriving DecidableEq

/-- Memory sample. -/
structure MemInfo where
  used : Int
  total : Int
deriving DecidableEq

/-- System metrics block of the snapshot. Numeric values keep the integer
part of the source arithmetic; the decimal string formatting of the
source is presentational and not modelled. -/
structure SystemMetricsOut where
  cpuLoad : Int
  memoryUsed : Int
  uptime : Int
deriving DecidableEq

/-- Network metrics block of the snapshot. The latency field is none
exactly when the source renders the string N/A (a falsy latency value). -/
structure NetworkMetricsOut where
  downloadSpeed : Int
  uploadSpeed : Int
  totalDownload : Int
  totalUpload : Int
  latency : Option Int
deriving DecidableEq

/-- Fully assembled metrics snapshot. Every field is mandatory, so a value
of this type can never be partially populated. -/
structure Snapshot where
  timestamp : String
  publicIpInfo : IpInfo
  systemMetrics : SystemMetricsOut
  networkMetrics : NetworkMetricsOut
deriving DecidableEq

/-- Embedding of getNetworkMetrics. Inputs: the attempt outcome functions
of the six concurrent sub-fetches (network counters, latency, identity,
CPU load, memory, uptime), each run through getMetricsWithRetry with the
default budget of 3, and the result of the snapshot-timestamp database
query executed after the join (none when the query or the pool access
throws). Any rejection inside the try block is caught and yields none. -/
def getNetworkMetrics (fNet : Nat → Option NetStats) (fLat : Nat → Option Int)
    (fIp : Nat → Option IpInfo) (fCpu : Nat → Option Int)
    (fMem : Nat → Option MemInfo) (fUp : Nat → Option Int)
    (dbTimestamp : Option String) : Option Snapshot :=
  match getMetricsWithRetry fNet 3, getMetricsWithRetry fLat 3,
      getMetricsWithRetry fIp 3, getMetricsWithRetry fCpu 3,
      getMetricsWithRetry fMem 3, getMetricsWithRetry fUp 3, dbTimestamp with
  | some ns, some lat, some ip, some cpu, some mem, some upv, some ts =>
    some ⟨ts, ip,
      ⟨cpu, mem.used * 100 / mem.total, upv / 3600⟩,
      ⟨ns.rx_sec / (1024 * 1024), ns.tx_sec / (1024 * 1024),
       ns.rx_bytes / (1024 * 1024 * 1024), ns.tx_bytes / (1024 * 1024 * 1024),
       if lat = 0 then none else some lat⟩⟩
  | _, _, _, _, _, _, _ => none

/- ---------------- ISP check gating inside the aggregator ---------------- -/

/-- Truthiness of a string in the guard of the source: non-empty strings
are truthy. -/
def truthyStr (s : String) : Bool := s ≠ ""

/-- Guard in front of checkAndLogIspChange inside getNetworkMetrics: the
resolved record must have truthy isp and ip fields and at least
ISP_CHECK_INTERVAL must have elapsed since the stored last check time. -/
def ispCheckGate (info : IpInfo) (now lastIspCheck : Nat) : Bool :=
  truthyStr info.isp && truthyStr info.ip &&
    decide (ISP_CHECK_INTERVAL ≤ now - lastIspCheck)

/-- Gated invocation of the change detector inside the aggregator: when
the guard passes, the swap table is updated and the last check time is
set to now; otherwise both are unchanged. -/
def ispCheckStep (info : IpInfo) (now lastIspCheck : Nat) (t : List SwapRow) :
    List SwapRow × Nat :=
  if ispCheckGate info now lastIspCheck then
    (checkAndLogIspChange info.isp info.ip t, now)
  else (t, lastIspCheck)

/- ---------------- monitoring loop and subscriber push ---------------- -/

/-- One tick of the monitoring loop: the source assigns the result of
getNetworkMetrics to currentMetrics unconditionally, so the previous
value is discarded whatever the sample result is. -/
def monitorTick (sampleResult : Option Snapshot) (_current : Option Snapshot) :
    Option Snapshot :=
  sampleResult

/-- Current snapshot after a sequence of loop ticks, given the sample
result of each tick in order. -/
def runTicks (samples : List (Option Snapshot)) (init : Option Snapshot) :
    Option Snapshot :=
  samples.foldl (fun cur s => monitorTick s cur) init

/-- One push tick of a subscriber connection: the source sends the current
snapshot only when currentMetrics is non-null and the socket is open;
none models that no message is sent. -/
def pushTick (current : Option Snapshot) (isOpen : Bool) : Option Snapshot :=
  match current with
  | some s => if isOpen then some s else none
  | none => none

/- ---------------- concrete example values ---------------- -/

/-- Concrete normalized record as a provider could produce it. -/
def infoA : IpInfo :=
  ⟨"1.2.3.4", "CountryA", "RegionA", "CityA", "AcmeISP",
   10, 20, "AcmeOrg", "UTC", "ip-api.com"⟩

/-- Second concrete record, distinct from infoA. -/
def infoB : IpInfo :=
  ⟨"5.6.7.8", "CountryB", "RegionB", "CityB", "GlobexISP",
   30, 40, "GlobexOrg", "UTC", "freeipapi.com"⟩

/-- Concrete network counter sample. -/
def nsEx : NetStats := ⟨2097152, 1048576, 3221225472, 1073741824⟩

/-- Concrete snapshot value. -/
def snapEx : Snapshot :=
  ⟨"2025-01-01 00:00:00", infoA, ⟨37, 52, 12⟩, ⟨2, 1, 3, 1, some 14⟩⟩

/-- Aggregator call in which the network-counter sub-fetch fails on every
one of its three attempts while the other five sub-fetches and the
timestamp query succeed. -/
def failingSample : Option Snapshot :=
  getNetworkMetrics (fun _ => none) (fun _ => some 14) (fun _ => some infoA)
    (fun _ => some 37) (fun _ => some ⟨52, 100⟩) (fun _ => some 43200)
    (some "2025-01-01 00:00:01")

/- ---------------- invariant machinery for the swap table ---------------- -/

/-- Invariant of the swap table maintained by the change detector from the
empty table: either the table is empty, or its most recently inserted row
is active and every other row is inactive. -/
def Inv : List SwapRow → Prop
  | [] => True
  | r :: rest => r.uplink = true ∧ ∀ s ∈ rest, s.uplink = false

/- ---------------- theorems ---------------- -/

theorem mem_of_idx {α : Type} : ∀ (l : List α) (n : Nat) (a : α),
    l.get? n = some a → a ∈ l := by
  intro l
  induction l with
  | nil => intro n a h; simp at h
  | cons x l ih =>
    intro n a h
    cases n with
    | zero =>
      simp at h
      simp [h]
    | succ m =>
      exact List.mem_cons_of_mem x (ih m a (by simpa using h))

theorem filter_eq_nil_of_false {α : Type} (q : α → Bool) :
    ∀ l : List α, (∀ s ∈ l, q s = false) → l.filter q = [] := by
  intro l
  induction l with
  | nil => intro _; rfl
  | cons a l ih =>
    intro h
    have ha := h a (by simp)
    simp [List.filter_cons, ha, ih fun s hs => h s (by simp [hs])]

theorem inv_step (i p : String) (t : List SwapRow) (h : Inv t) :
    Inv (checkAndLogIspChange i p t) := by
  cases t with
  | nil => simp [checkAndLogIspChange, Inv]
  | cons r rest =>
    obtain ⟨hr, hrest⟩ := h
    by_cases hisp : r.isp = i
    · simpa [checkAndLogIspChange, hisp, Inv] using ⟨hr, hrest⟩
    · have hall : ∀ s ∈ deactivate r.isp (r :: rest), s.uplink = false := by
        intro s hs
        unfold deactivate at hs
        obtain ⟨x, hx, hxs⟩ := List.mem_map.mp hs
        by_cases hc : x.isp = r.isp ∧ x.uplink = true
        · rw [if_pos hc] at hxs
          simp [← hxs]
        · rw [if_neg hc] at hxs
          subst hxs
          rcases List.mem_cons.mp hx with hxr | hxr
          · subst hxr
            cases hux : x.uplink with
            | false => rfl
            | true => exact absurd ⟨rfl, hux⟩ hc
          · exact hrest x hxr
      have hstep : checkAndLogIspChange i p (r :: rest)
          = ⟨i, p, true⟩ :: deactivate r.isp (r :: rest) := by
        simp [checkAndLogIspChange, hisp]
      rw [hstep]
      exact ⟨rfl, hall⟩

theorem inv_foldl :
    ∀ (obs : List (String × String)) (t : List SwapRow), Inv t →
      Inv (obs.foldl (fun t p => checkAndLogIspChange p.1 p.2 t) t) := by
  intro obs
  induction obs with
  | nil => intro t h; simpa
  | cons p rest ih =>
    intro t h
    rw [List.foldl_cons]
    exact ih _ (inv_step p.1 p.2 t h)

theorem inv_run (obs : List (String × String)) : Inv (run obs) :=
  inv_foldl obs [] trivial

theorem inv_filter_le_one (q : SwapRow → Bool) (t : List SwapRow) (h : Inv t)
    (hq : ∀ s, q s = true → s.uplink = true) :
    (t.filter q).length ≤ 1 := by
  cases t with
  | nil => simp
  | cons r rest =>
    obtain ⟨hr, hrest⟩ := h
    have hnil : rest.filter q = [] := by
      refine filter_eq_nil_of_false q rest fun s hs => ?_
      cases hqv : q s with
      | false => rfl
      | true => exact absurd (hq s hqv) (by simp [hrest s hs])
    cases hqr : q r <;> simp [List.filter_cons, hqr, hnil]

theorem inv_active_idx (t : List SwapRow) (h : Inv t) :
    ∀ k r, t.get? k = some r → r.uplink = true → k = 0 := by
  cases t with
  | nil => intro k r hk _; simp at hk
  | cons hd rest =>
    obtain ⟨hhd, hrest⟩ := h
    intro k r hk hup
    cases k with
    | zero => rfl
    | succ j =>
      have hmem : r ∈ rest := mem_of_idx rest j r (by simpa using hk)
      exact absurd hup (by simp [hrest r hmem])

/-- C2: starting from an empty swap table, after every completed call of
checkAndLogIspChange at most one row per distinct ISP is active, and any
active row sits at index 0 of the most-recent-first table, that is, it is
the most recently inserted row of the whole table and in particular the
most recently inserted row of its ISP. -/
theorem C2_active_unique (obs : List (String × String)) (isp : String) :
    ((run obs).filter fun r => r.isp == isp && r.uplink).length ≤ 1
  ∧ ∀ k r, (run obs).get? k = some r → r.uplink = true → k = 0 :=
  ⟨inv_filter_le_one _ _ (inv_run obs) (by intro s hs; simp at hs; exact hs.2),
   inv_active_idx _ (inv_run obs)⟩

/-- Witness for C2 at the observation sequence A then B. -/
theorem C2_active_unique_witness :
    ((run [("A", "1"), ("B", "2")]).filter fun r => r.isp == "A" && r.uplink).length ≤ 1
  ∧ (0 : Nat) = 0 :=
  ⟨(C2_active_unique [("A", "1"), ("B", "2")] "A").1,
   (C2_active_unique [("A", "1"), ("B", "2")] "A").2 0 ⟨"B", "2", true⟩
     (by decide) (by decide)⟩

/-- C9: starting from an empty swap table, after every completed call of
checkAndLogIspChange at most one row of the entire table is active,
across all ISPs. -/
theorem C9_global_single_active (obs : List (String × String)) :
    ((run obs).filter fun r => r.uplink).length ≤ 1 :=
  inv_filter_le_one _ _ (inv_run obs) fun _ hs => hs

/-- C6: when the most recent swap-table row carries the observed ISP, the
change detector performs no insert and no update, however often the
observation is repeated and whatever IP values the repetitions carry. -/
theorem C6_idempotent (t : List SwapRow) (last : SwapRow) (ip : String)
    (h : t.head? = some last) :
    checkAndLogIspChange last.isp ip t = t
  ∧ ∀ ips : List String,
      ips.foldl (fun s q => checkAndLogIspChange last.isp q s) t = t := by
  have hone : ∀ q : String, checkAndLogIspChange last.isp q t = t := by
    intro q
    cases t with
    | nil => simp at h
    | cons hd rest =>
      have hhd : hd = last := by simpa using h
      subst hhd
      simp [checkAndLogIspChange]
  refine ⟨hone ip, ?_⟩
  intro ips
  induction ips with
  | nil => rfl
  | cons q qs ih => rw [List.foldl_cons, hone q]; exact ih

/-- Witness for C6 at a one-row table with ISP A. -/
theorem C6_idempotent_witness :
    checkAndLogIspChange "A" "9.9.9.9" [⟨"A", "1", true⟩] = [⟨"A", "1", true⟩]
  ∧ ["8.8.8.8", "7.7.7.7"].foldl
      (fun s q => checkAndLogIspChange "A" q s) [⟨"A", "1", true⟩] = [⟨"A", "1", true⟩] :=
  ⟨(C6_idempotent [⟨"A", "1", true⟩] ⟨"A", "1", true⟩ "9.9.9.9" rfl).1,
   (C6_idempotent [⟨"A", "1", true⟩] ⟨"A", "1", true⟩ "9.9.9.9" rfl).2
     ["8.8.8.8", "7.7.7.7"]⟩

/-- C10: the sentinel record carries isp Unknown and ip 000.000.000.000,
both non-empty and hence truthy, so it passes the guard in front of the
change detector; once the check interval has elapsed, the gated step runs
checkAndLogIspChange with isp Unknown, and when the latest table row has a
different ISP this persists the sentinel identity as a new active row. -/
theorem C10_sentinel_persisted (now last : Nat) (t : List SwapRow)
    (hgap : ISP_CHECK_INTERVAL ≤ now - last)
    (hdiff : (t.head?.all fun r => r.isp != "Unknown") = true) :
    mockIpInfo.isp = "Unknown" ∧ mockIpInfo.ip = "000.000.000.000"
  ∧ truthyStr mockIpInfo.isp = true ∧ truthyStr mockIpInfo.ip = true
  ∧ ispCheckGate mockIpInfo now last = true
  ∧ ((ispCheckStep mockIpInfo now last t).1).head?
      = some ⟨"Unknown", "000.000.000.000", true⟩ := by
  have hgate : ispCheckGate mockIpInfo now last = true := by
    simp [ispCheckGate, truthyStr, mockIpInfo, hgap]
  refine ⟨rfl, rfl, by decide, by decide, hgate, ?_⟩
  rw [ispCheckStep, if_pos hgate]
  cases t with
  | nil => simp [checkAndLogIspChange, mockIpInfo]
  | cons hd rest =>
    have hne : ¬ hd.isp = "Unknown" := by simpa using hdiff
    simp [checkAndLogIspChange, mockIpInfo, hne]

/-- Witness for C10 at an elapsed interval and a table whose latest row is
a real ISP. -/
theorem C10_sentinel_persisted_witness :
    mockIpInfo.isp = "Unknown" ∧ mockIpInfo.ip = "000.000.000.000"
  ∧ truthyStr mockIpInfo.isp = true ∧ truthyStr mockIpInfo.ip = true
  ∧ ispCheckGate mockIpInfo 30000 0 = true
  ∧ ((ispCheckStep mockIpInfo 30000 0 [⟨"AcmeISP", "1.2.3.4", true⟩]).1).head?
      = some ⟨"Unknown", "000.000.000.000", true⟩ :=
  C10_sentinel_persisted 30000 0 [⟨"AcmeISP", "1.2.3.4", true⟩]
    (by decide) (by decide)

theorem firstSuccess_of_skip :
    ∀ (os : List (Option IpInfo)) (i : Nat) (d : IpInfo),
      (∀ o ∈ os.take i, o = none) → os.get? i = some (some d) →
      firstSuccess os = some (d, i + 1) := by
  intro os
  induction os with
  | nil => intro i d _ hget; simp at hget
  | cons o rest ih =>
    intro i d htake hget
    cases i with
    | zero =>
      have ho : o = some d := by simpa using hget
      subst ho
      rfl
    | succ j =>
      have ho : o = none := htake o (by simp)
      subst ho
      have htake2 : ∀ x ∈ rest.take j, x = none := fun x hx => htake x (by simp [hx])
      have hget2 : rest.get? j = some (some d) := by simpa using hget
      simp [firstSuccess, ih j d htake2 hget2]

theorem firstSuccess_allFail :
    ∀ os : List (Option IpInfo), (∀ o ∈ os, o = none) → firstSuccess os = none := by
  intro os
  induction os with
  | nil => intro _; rfl
  | cons o rest ih =>
    intro h
    have ho : o = none := h o (by simp)
    subst ho
    simp [firstSuccess, ih fun x hx => h x (by simp [hx])]

/-- C1 amended: the resolver is total, and its value is determined by a
case split in which a fresh cache takes priority over the providers: with
a fresh cache it returns the cached data and attempts no fetch; on a
cache miss it returns the record of the first provider whose fetch
succeeds; if every provider fails it returns the cached data when an
entry exists, however old, and the sentinel record with source mock when
none does. -/
theorem C1_resolve_cases (now : Nat) (os : List (Option IpInfo))
    (cache : Option CacheEntry) :
    (∀ c, cache = some c → now - c.timestamp < CACHE_DURATION →
        getPublicIpInfo now os cache = ⟨c.data, some c, 0⟩)
  ∧ (CacheMiss now cache → ∀ i d, (∀ o ∈ os.take i, o = none) →
        os.get? i = some (some d) → (getPublicIpInfo now os cache).data = d)
  ∧ (CacheMiss now cache → (∀ o ∈ os, o = none) →
        (∀ c, cache = some c → (getPublicIpInfo now os cache).data = c.data)
      ∧ (cache = none →
          getPublicIpInfo now os cache = ⟨mockIpInfo, none, os.length⟩
        ∧ mockIpInfo.source = "mock")) := by
  refine ⟨?_, ?_, ?_⟩
  · intro c hc hfresh
    subst hc
    simp [getPublicIpInfo, hfresh]
  · intro hmiss i d htake hget
    have hfs := firstSuccess_of_skip os i d htake hget
    cases cache with
    | none => simp [getPublicIpInfo, hfs]
    | some c =>
      have hnf : ¬ now - c.timestamp < CACHE_DURATION := not_lt.mpr hmiss
      simp [getPublicIpInfo, hnf, hfs]
  · intro hmiss hall
    have hfs := firstSuccess_allFail os hall
    constructor
    · intro c hc
      subst hc
      have hnf : ¬ now - c.timestamp < CACHE_DURATION := not_lt.mpr hmiss
      simp [getPublicIpInfo, hnf, hfs]
    · intro hc
      subst hc
      exact ⟨by simp [getPublicIpInfo, hfs], rfl⟩

/-- Counterexample to C1 as stated: with a fresh cache entry holding infoB
and the first provider succeeding with infoA, the resolver returns the
cached infoB, not the record of the first succeeding provider. -/
theorem C1_counterexample :
    (getPublicIpInfo 40000 [some infoA, none, none, none]
      (some ⟨infoB, 39000⟩)).data = infoB
  ∧ infoB ≠ infoA
  ∧ 40000 - 39000 < CACHE_DURATION := by decide

/-- Witness for C1 amended: on an expired cache the second provider wins
after the first fails, and on a fresh cache the cached record is served
with zero fetch attempts. -/
theorem C1_resolve_cases_witness :
    (getPublicIpInfo 40000 [none, some infoA, none, none]
      (some ⟨infoB, 0⟩)).data = infoA
  ∧ getPublicIpInfo 40000 [none, some infoA, none, none] (some ⟨infoB, 39000⟩)
      = ⟨infoB, some ⟨infoB, 39000⟩, 0⟩ :=
  ⟨(C1_resolve_cases 40000 [none, some infoA, none, none] (some ⟨infoB, 0⟩)).2.1
      (show CACHE_DURATION ≤ 40000 - 0 by decide) 1 infoA (by decide) (by decide),
   (C1_resolve_cases 40000 [none, some infoA, none, none] (some ⟨infoB, 39000⟩)).1
      ⟨infoB, 39000⟩ rfl (by decide)⟩

/-- C5 amended: when the first call misses the cache and its provider
phase succeeds, a second call within CACHE_DURATION returns the identical
record, leaves the cache untouched and attempts no provider fetch, so the
only fetches of the pair are those of the first call, exactly one when
the first provider succeeds. -/
theorem C5_cache_hit (t1 t2 : Nat) (os1 os2 : List (Option IpInfo))
    (cache : Option CacheEntry) (d : IpInfo) (n : Nat)
    (hmiss : CacheMiss t1 cache) (hsucc : firstSuccess os1 = some (d, n))
    (hwin : t2 - t1 < CACHE_DURATION) :
    (getPublicIpInfo t1 os1 cache).data = d
  ∧ (getPublicIpInfo t1 os1 cache).attempts = n
  ∧ getPublicIpInfo t2 os2 (getPublicIpInfo t1 os1 cache).cache
      = ⟨d, some ⟨d, t1⟩, 0⟩ := by
  have hcall1 : getPublicIpInfo t1 os1 cache = ⟨d, some ⟨d, t1⟩, n⟩ := by
    cases cache with
    | none => simp [getPublicIpInfo, hsucc]
    | some c =>
      have hnf : ¬ t1 - c.timestamp < CACHE_DURATION := not_lt.mpr hmiss
      simp [getPublicIpInfo, hnf, hsucc]
  rw [hcall1]
  exact ⟨rfl, rfl, by simp [getPublicIpInfo, hwin]⟩

/-- Counterexample to C5 as stated: with an expired cache entry present
and every provider failing, the first call triggers provider fetches but
does not refresh the cache timestamp, so the second call, though within
CACHE_DURATION of the first, runs the whole provider loop again instead
of performing no fetch. -/
theorem C5_counterexample :
    41000 - 40000 < CACHE_DURATION
  ∧ 0 < (getPublicIpInfo 40000 [none, none, none, none]
      (some ⟨infoB, 0⟩)).attempts
  ∧ (getPublicIpInfo 41000 [none, none, none, none]
      (getPublicIpInfo 40000 [none, none, none, none]
        (some ⟨infoB, 0⟩)).cache).attempts ≠ 0 := by decide

/-- Witness for C5 amended at a first call whose first provider succeeds
on an empty cache. -/
theorem C5_cache_hit_witness :
    (getPublicIpInfo 40000 [some infoA, none, none, none] none).data = infoA
  ∧ (getPublicIpInfo 40000 [some infoA, none, none, none] none).attempts = 1
  ∧ getPublicIpInfo 41000 [none, none, none, none]
      (getPublicIpInfo 40000 [some infoA, none, none, none] none).cache
      = ⟨infoA, some ⟨infoA, 40000⟩, 0⟩ :=
  C5_cache_hit 40000 41000 [some infoA, none, none, none]
    [none, none, none, none] none infoA 1 True.intro rfl (by decide)

/-- C3 amended: each loop tick stores the sample result into the current
snapshot unconditionally, so after any tick sequence the current snapshot
equals the last sample result, and a push tick forwards exactly that
value to a subscriber: the snapshot itself when non-null and no message
at all when the last sample was null. -/
theorem C3_tick_replaces (samples : List (Option Snapshot)) (s : Option Snapshot)
    (init : Option Snapshot) :
    runTicks (samples ++ [s]) init = s
  ∧ pushTick (runTicks (samples ++ [s]) init) true = s := by
  have h1 : runTicks (samples ++ [s]) init = s := by
    simp [runTicks, List.foldl_append, monitorTick]
  refine ⟨h1, ?_⟩
  rw [h1]
  cases s <;> simp [pushTick]

/-- Counterexample to C3 as stated: a tick whose sample is null (here an
aggregator call whose network-counter sub-fetch exhausts its retries)
overwrites the previous snapshot with null instead of keeping it, and the
next push tick sends nothing rather than the previous snapshot. -/
theorem C3_counterexample :
    failingSample = none
  ∧ monitorTick failingSample (some snapEx) = none
  ∧ monitorTick failingSample (some snapEx) ≠ some snapEx
  ∧ pushTick (monitorTick failingSample (some snapEx)) true = none := by decide

/-- C4 amended: the aggregator is all-or-nothing over seven inputs: when
each of the six retry-wrapped sub-fetches succeeds within its budget of
three attempts and the snapshot-timestamp database query also succeeds,
the result is a snapshot with every field populated from those values;
when any of the six sub-fetches exhausts its retries the result is null,
never a partially populated snapshot. -/
theorem C4_all_or_nothing (fNet : Nat → Option NetStats) (fLat : Nat → Option Int)
    (fIp : Nat → Option IpInfo) (fCpu : Nat → Option Int)
    (fMem : Nat → Option MemInfo) (fUp : Nat → Option Int)
    (dbTimestamp : Option String) :
    (∀ ns lat ip cpu mem upv ts,
        getMetricsWithRetry fNet 3 = some ns →
        getMetricsWithRetry fLat 3 = some lat →
        getMetricsWithRetry fIp 3 = some ip →
        getMetricsWithRetry fCpu 3 = some cpu →
        getMetricsWithRetry fMem 3 = some mem →
        getMetricsWithRetry fUp 3 = some upv →
        dbTimestamp = some ts →
        getNetworkMetrics fNet fLat fIp fCpu fMem fUp dbTimestamp =
          some ⟨ts, ip,
            ⟨cpu, mem.used * 100 / mem.total, upv / 3600⟩,
            ⟨ns.rx_sec / (1024 * 1024), ns.tx_sec / (1024 * 1024),
             ns.rx_bytes / (1024 * 1024 * 1024), ns.tx_bytes / (1024 * 1024 * 1024),
             if lat = 0 then none else some lat⟩⟩)
  ∧ ((getMetricsWithRetry fNet 3 = none ∨ getMetricsWithRetry fLat 3 = none ∨
      getMetricsWithRetry fIp 3 = none ∨ getMetricsWithRetry fCpu 3 = none ∨
      getMetricsWithRetry fMem 3 = none ∨ getMetricsWithRetry fUp 3 = none) →
        getNetworkMetrics fNet fLat fIp fCpu fMem fUp dbTimestamp = none) := by
  constructor
  · intro ns lat ip cpu mem upv ts h1 h2 h3 h4 h5 h6 h7
    simp [getNetworkMetrics, h1, h2, h3, h4, h5, h6, h7]
  · intro h
    cases h1 : getMetricsWithRetry fNet 3 <;>
      cases h2 : getMetricsWithRetry fLat 3 <;>
      cases h3 : getMetricsWithRetry fIp 3 <;>
      cases h4 : getMetricsWithRetry fCpu 3 <;>
      cases h5 : getMetricsWithRetry fMem 3 <;>
      cases h6 : getMetricsWithRetry fUp 3 <;>
      simp_all [getNetworkMetrics]

/-- Counterexample to C4 as stated: all six sub-fetches succeed on their
first attempt, yet the aggregator returns null because the
snapshot-timestamp database query fails. -/
theorem C4_counterexample :
    getMetricsWithRetry (fun _ => some nsEx) 3 = some nsEx
  ∧ getMetricsWithRetry (fun _ => some (14 : Int)) 3 = some 14
  ∧ getMetricsWithRetry (fun _ => some infoA) 3 = some infoA
  ∧ getMetricsWithRetry (fun _ => some (37 : Int)) 3 = some 37
  ∧ getMetricsWithRetry (fun _ => some (⟨52, 100⟩ : MemInfo)) 3 = some ⟨52, 100⟩
  ∧ getMetricsWithRetry (fun _ => some (43200 : Int)) 3 = some 43200
  ∧ getNetworkMetrics (fun _ => some nsEx) (fun _ => some 14) (fun _ => some infoA)
      (fun _ => some 37) (fun _ => some ⟨52, 100⟩) (fun _ => some 43200)
      none = none := by decide

/-- Witness for C4 amended: a fully successful cycle produces the fully
populated snapshot, and a cycle whose network-counter sub-fetch exhausts
its retries produces null. -/
theorem C4_all_or_nothing_witness :
    getNetworkMetrics (fun _ => some nsEx) (fun _ => some 14) (fun _ => some infoA)
      (fun _ => some 37) (fun _ => some ⟨52, 100⟩) (fun _ => some 43200)
      (some "2025-01-01 00:00:01")
      = some ⟨"2025-01-01 00:00:01", infoA, ⟨37, 52, 12⟩, ⟨2, 1, 3, 1, some 14⟩⟩
  ∧ getNetworkMetrics (fun _ => none) (fun _ => some 14) (fun _ => some infoA)
      (fun _ => some 37) (fun _ => some ⟨52, 100⟩) (fun _ => some 43200)
      (some "2025-01-01 00:00:01") = none :=
  ⟨((C4_all_or_nothing (fun _ => some nsEx) (fun _ => some 14) (fun _ => some infoA)
      (fun _ => some 37) (fun _ => some ⟨52, 100⟩) (fun _ => some 43200)
      (some "2025-01-01 00:00:01")).1 nsEx 14 infoA 37 ⟨52, 100⟩ 43200
      "2025-01-01 00:00:01" rfl rfl rfl rfl rfl rfl rfl).trans (by decide),
   (C4_all_or_nothing (fun _ => none) (fun _ => some 14) (fun _ => some infoA)
      (fun _ => some 37) (fun _ => some ⟨52, 100⟩) (fun _ => some 43200)
      (some "2025-01-01 00:00:01")).2 (Or.inl rfl)⟩

/-- C7 amended: the gate is exact with respect to the stored last-call
time, sending at the maximum of the arrival time and last-call plus
interval, and the stored time advances only on success: after a
successful request, the next request to the same provider is sent at
least the interval after the previous response, hence at least the
interval after the previous send, and no later than that bound and its
own arrival force. -/
theorem C7_gate_separation (limit lastCall a1 a2 : Nat) (c1 c2 : CallOutcome)
    (h0 : lastCall ≤ a1) (hok : c1.ok = true)
    (h2 : (stepCall limit lastCall a1 c1).2 ≤ a2) :
    sendTime a1 lastCall limit = max a1 (lastCall + limit)
  ∧ (stepCall limit (stepCall limit lastCall a1 c1).2 a2 c2).1
      = max a2 ((stepCall limit lastCall a1 c1).1 + c1.duration + limit)
  ∧ (stepCall limit lastCall a1 c1).1 + limit
      ≤ (stepCall limit (stepCall limit lastCall a1 c1).2 a2 c2).1 := by
  have hsend : ∀ now lastv lim : Nat, lastv ≤ now →
      sendTime now lastv lim = max now (lastv + lim) := by
    intro now lastv lim hle
    rw [sendTime, waitTime, Nat.max_def]
    split <;> split <;> omega
  have hs2 : (stepCall limit lastCall a1 c1).2
      = sendTime a1 lastCall limit + c1.duration := by
    simp [stepCall, hok]
  have hla : sendTime a1 lastCall limit + c1.duration ≤ a2 := by
    rw [← hs2]; exact h2
  have h2nd : (stepCall limit (stepCall limit lastCall a1 c1).2 a2 c2).1
      = max a2 ((stepCall limit lastCall a1 c1).1 + c1.duration + limit) := by
    show sendTime a2 ((stepCall limit lastCall a1 c1).2) limit = _
    rw [hs2, hsend a2 _ limit hla]
    rfl
  refine ⟨hsend a1 lastCall limit h0, h2nd, ?_⟩
  rw [h2nd]
  have hmax := Nat.le_max_right a2
    ((stepCall limit lastCall a1 c1).1 + c1.duration + limit)
  omega

/-- Counterexample to C7 as stated: the stored last-call time is not
advanced by a failed request, so a request arriving 100 ms after a failed
one is sent immediately, 100 ms after the previous outbound request and
well under the 1000 ms minimum interval. -/
theorem C7_counterexample :
    (stepCall API_RATE_LIMITS.ipApi 0 5000 ⟨50, false⟩).1 = 5000
  ∧ (stepCall API_RATE_LIMITS.ipApi
      (stepCall API_RATE_LIMITS.ipApi 0 5000 ⟨50, false⟩).2 5100 ⟨50, true⟩).1 = 5100
  ∧ 5100 - 5000 < API_RATE_LIMITS.ipApi := by decide

/-- Witness for C7 amended at a successful 50 ms call followed by a
request arriving 100 ms later. -/
theorem C7_gate_separation_witness :
    sendTime 5000 0 1000 = max 5000 (0 + 1000)
  ∧ (stepCall 1000 (stepCall 1000 0 5000 ⟨50, true⟩).2 5100 ⟨60, true⟩).1
      = max 5100 ((stepCall 1000 0 5000 ⟨50, true⟩).1 + 50 + 1000)
  ∧ (stepCall 1000 0 5000 ⟨50, true⟩).1 + 1000
      ≤ (stepCall 1000 (stepCall 1000 0 5000 ⟨50, true⟩).2 5100 ⟨60, true⟩).1 :=
  C7_gate_separation 1000 0 5000 5100 ⟨50, true⟩ ⟨60, true⟩
    (by decide) rfl (by decide)

/-- C8: the gateway logging task is total, so no invocation throws; a
probe that resolves unreachable carries status down into the primary
write; whenever the probe rejects or the primary write fails, exactly one
fallback write is attempted, it carries status down, and nothing further
is attempted whether or not it succeeds. -/
theorem C8_gateway_logger (probe : Except Unit Bool) (pOk fOk : Bool) :
    (logGatewayStatus true (Except.ok false) pOk fOk).primaryAttempt
      = some ⟨GwStatus.down, pOk⟩
  ∧ ((probe = Except.error () ∨ pOk = false) →
      (logGatewayStatus true probe pOk fOk).fallbackAttempt
        = some ⟨GwStatus.down, fOk⟩)
  ∧ ∀ (hasPool : Bool) (w : GwWrite),
      (logGatewayStatus hasPool probe pOk fOk).fallbackAttempt = some w →
      w.status = GwStatus.down := by
  refine ⟨?_, ?_, ?_⟩
  · cases pOk <;> simp [logGatewayStatus]
  · intro h
    rcases h with h | h
    · subst h; simp [logGatewayStatus]
    · subst h
      cases probe with
      | error e => simp [logGatewayStatus]
      | ok alive => cases alive <;> simp [logGatewayStatus]
  · intro hasPool w hw
    cases hasPool <;> cases probe <;> cases pOk <;> cases fOk <;>
      simp_all [logGatewayStatus] <;> simp [← hw]

/-- Witness for C8: an unreachable probe with a failing primary write, a
rejected probe with a successful fallback write, and the down status of
that fallback write. -/
theorem C8_gateway_logger_witness :
    (logGatewayStatus true (Except.ok false) false true).primaryAttempt
      = some ⟨GwStatus.down, false⟩
  ∧ (logGatewayStatus true (Except.error ()) true true).fallbackAttempt
      = some ⟨GwStatus.down, true⟩
  ∧ (⟨GwStatus.down, true⟩ : GwWrite).status = GwStatus.down :=
  ⟨(C8_gateway_logger (Except.ok false) false true).1,
   (C8_gateway_logger (Except.error ()) true true).2.1 (Or.inl rfl),
   (C8_gateway_logger (Except.error ()) true true).2.2 true ⟨GwStatus.down, true⟩
     (by decide)⟩

end UplinkMonitor
